import Mathlib

/-!
Verification of the selector-resolution and extraction core of
felipemacedo1/playwright-web-scraper against its natural-language
specification.

The Python modules `src/agent/storage.py`, `src/agent/auto_detect.py` and
`src/agent/scraper.py` are shallowly embedded below.  External effects
(the SQLite engine, the Playwright DOM) are modelled explicitly:

* the SQLite table `scraped_data` is a list of rows in insertion order;
  `INSERT OR IGNORE` against the `link TEXT UNIQUE` column succeeds exactly
  when the inserted link is NULL or not yet present (SQLite treats NULL as
  distinct from every value, including NULL);
* a DOM query capability is a function from a CSS selector string to
  `Option Nat`: `some n` models `query_selector_all` returning `n`
  elements, `none` models the call raising;
* per-container element probes are Except-valued fields, `Except.error ()`
  modelling a raised exception.
-/

/-! ### Data model: records and persisted rows (storage.py) -/

/-- A scraped record, the `Dict[str, str]` built by
`WebScraper._extract_item_data`.  A field is `none` when the key is absent
from the dict (`item.get(k)` then returns Python `None`). -/
structure Record where
  title : Option String
  author : Option String
  date : Option String
  content : Option String
  link : Option String
deriving DecidableEq, Repr

/-- A row of the SQLite table `scraped_data` (storage.py, `_create_table`),
columns in schema order minus the surrogate id and timestamp, which no
claim mentions.  `link` is the column carrying the UNIQUE constraint. -/
structure Row where
  title : Option String
  author : Option String
  date : Option String
  link : Option String
  content : Option String
deriving DecidableEq, Repr

/-- The per-batch counters accumulated by `SQLiteStorage.save`
(storage.py lines 113-115). -/
structure SaveCounts where
  inserted : Nat
  duplicates : Nat
  errors : Nat
deriving DecidableEq, Repr

/-- The tuple bound by `save`'s INSERT statement (storage.py lines 119-129):
`(title, author, date, link, content)` pulled from the record with `.get`. -/
def rowOf (r : Record) : Row :=
  ⟨r.title, r.author, r.date, r.link, r.content⟩

namespace SQLiteStorage

/-- Whether an `INSERT OR IGNORE` of a record with link `l` into table `db`
is ignored by the UNIQUE constraint on `link`: only a non-NULL link equal to
an existing row's link conflicts (SQLite UNIQUE ignores NULLs). -/
def linkConflict (db : List Row) : Option String → Bool
  | none => false
  | some s => db.any (fun row => row.link == some s)

/-- The `for item in data` loop of `SQLiteStorage.save` (storage.py lines
117-140).  `errOracle i` models the catch-all `except Exception` branch
firing for the i-th item (a non-constraint SQLite error); otherwise the
insert is attempted and `cursor.rowcount` distinguishes a real insert
(counted `inserted`) from a unique-constraint ignore (counted
`duplicates`).  A successful insert appends the row to the table. -/
def save_go (errOracle : Nat → Bool) :
    Nat → List Row → SaveCounts → List Record → List Row × SaveCounts
  | _, db, acc, [] => (db, acc)
  | i, db, acc, item :: rest =>
    match errOracle i with
    | true =>
      save_go errOracle (i + 1) db ⟨acc.inserted, acc.duplicates, acc.errors + 1⟩ rest
    | false =>
      match linkConflict db item.link with
      | true =>
        save_go errOracle (i + 1) db ⟨acc.inserted, acc.duplicates + 1, acc.errors⟩ rest
      | false =>
        save_go errOracle (i + 1) (db ++ [rowOf item])
          ⟨acc.inserted + 1, acc.duplicates, acc.errors⟩ rest

/-- `SQLiteStorage.save` (storage.py lines 102-147): runs the insert loop
over the batch starting from zeroed counters and returns the updated table
together with the counters it reports (the Python code logs
`inserted | duplicates | errors`; the model returns them). -/
def save (errOracle : Nat → Bool) (db : List Row) (data : List Record) :
    List Row × SaveCounts :=
  save_go errOracle 0 db ⟨0, 0, 0⟩ data

end SQLiteStorage

/-- The error oracle of a run in which no non-constraint SQLite error
occurs (the normal case for well-formed records). -/
def noErr : Nat → Bool := fun _ => false

/-! ### Storage lemmas -/

theorem linkConflict_nil (l : Option String) :
    SQLiteStorage.linkConflict [] l = false := by
  cases l <;> rfl

theorem linkConflict_append (db1 db2 : List Row) (l : Option String) :
    SQLiteStorage.linkConflict (db1 ++ db2) l
      = (SQLiteStorage.linkConflict db1 l || SQLiteStorage.linkConflict db2 l) := by
  cases l with
  | none => rfl
  | some s => simp [SQLiteStorage.linkConflict]

/-- Every record of a batch is counted exactly once: the loop body adds one
to exactly one of the three counters per item. -/
theorem save_go_counts_sum (errOracle : Nat → Bool) :
    ∀ (data : List Record) (i : Nat) (db : List Row) (acc : SaveCounts),
      ((SQLiteStorage.save_go errOracle i db acc data).2.inserted +
        (SQLiteStorage.save_go errOracle i db acc data).2.duplicates +
        (SQLiteStorage.save_go errOracle i db acc data).2.errors)
        = acc.inserted + acc.duplicates + acc.errors + data.length
  | [], i, db, acc => by simp [SQLiteStorage.save_go]
  | item :: rest, i, db, acc => by
    cases herr : errOracle i with
    | true =>
      simp only [SQLiteStorage.save_go, herr]
      rw [save_go_counts_sum errOracle rest]
      simp only [List.length_cons]
      omega
    | false =>
      cases hconf : SQLiteStorage.linkConflict db item.link with
      | true =>
        simp only [SQLiteStorage.save_go, herr, hconf]
        rw [save_go_counts_sum errOracle rest]
        simp only [List.length_cons]
        omega
      | false =>
        simp only [SQLiteStorage.save_go, herr, hconf]
        rw [save_go_counts_sum errOracle rest]
        simp only [List.length_cons]
        omega

/-- With no SQLite faults, a batch none of whose links conflicts with the
table, and whose later records never reuse an earlier record's non-null
link, is inserted wholesale: every row is appended in order and only the
`inserted` counter moves. -/
theorem save_go_fresh :
    ∀ (data : List Record) (i : Nat) (db : List Row) (acc : SaveCounts),
      (∀ r ∈ data, SQLiteStorage.linkConflict db r.link = false) →
      data.Pairwise (fun a b => ∀ s, a.link = some s → b.link ≠ some s) →
      SQLiteStorage.save_go noErr i db acc data
        = (db ++ data.map rowOf,
            ⟨acc.inserted + data.length, acc.duplicates, acc.errors⟩)
  | [], i, db, acc, _, _ => by simp [SQLiteStorage.save_go]
  | item :: rest, i, db, acc, hfresh, hpw => by
    have hitem : SQLiteStorage.linkConflict db item.link = false :=
      hfresh item (List.mem_cons_self _ _)
    have hpw' := List.pairwise_cons.mp hpw
    have hrest : ∀ r ∈ rest,
        SQLiteStorage.linkConflict (db ++ [rowOf item]) r.link = false := by
      intro r hr
      rw [linkConflict_append]
      have h1 := hfresh r (List.mem_cons_of_mem _ hr)
      rw [h1]
      cases hrl : r.link with
      | none => rfl
      | some s =>
        have hne : item.link ≠ some s := by
          intro hil
          exact (hpw'.1 r hr s hil) hrl
        simp [SQLiteStorage.linkConflict, rowOf, hne]
    simp only [SQLiteStorage.save_go, noErr, hitem]
    rw [save_go_fresh rest (i + 1) (db ++ [rowOf item])
        ⟨acc.inserted + 1, acc.duplicates, acc.errors⟩ hrest hpw'.2]
    simp only [List.map_cons, List.length_cons, List.append_assoc,
      List.singleton_append, Prod.mk.injEq, SaveCounts.mk.injEq,
      true_and, and_true]
    omega

/-- With no SQLite faults, a batch every one of whose links already
conflicts with the table is ignored wholesale: the table is unchanged and
only the `duplicates` counter moves. -/
theorem save_go_alldup :
    ∀ (data : List Record) (i : Nat) (db : List Row) (acc : SaveCounts),
      (∀ r ∈ data, SQLiteStorage.linkConflict db r.link = true) →
      SQLiteStorage.save_go noErr i db acc data
        = (db, ⟨acc.inserted, acc.duplicates + data.length, acc.errors⟩)
  | [], i, db, acc, _ => by simp [SQLiteStorage.save_go]
  | item :: rest, i, db, acc, hdup => by
    have hitem := hdup item (List.mem_cons_self _ _)
    simp only [SQLiteStorage.save_go, noErr, hitem]
    rw [save_go_alldup rest (i + 1) db
        ⟨acc.inserted, acc.duplicates + 1, acc.errors⟩
        (fun r hr => hdup r (List.mem_cons_of_mem _ hr))]
    simp only [List.length_cons, Prod.mk.injEq, SaveCounts.mk.injEq,
      true_and, and_true]
    omega

/-! ### Storage claims -/

/-- Claim C10: every record of a batch passed to `SQLiteStorage.save`
increments exactly one of the three counters, so the reported counts
satisfy `inserted + duplicate + errored = length of the batch`; the save
call is total (no single record's insert failure propagates out), for any
pattern of per-record insert faults. -/
theorem save_counts_partition (errOracle : Nat → Bool) (db : List Row)
    (data : List Record) :
    (SQLiteStorage.save errOracle db data).2.inserted +
      (SQLiteStorage.save errOracle db data).2.duplicates +
      (SQLiteStorage.save errOracle db data).2.errors = data.length := by
  unfold SQLiteStorage.save
  rw [save_go_counts_sum]
  simp

/-- Claim C1: saving a batch of records with pairwise-distinct non-null
links twice, against an initially empty store and with no SQLite faults,
reports `inserted = N, duplicate = 0` on the first call and
`inserted = 0, duplicate = N` on the second, and the second call leaves
the rows written by the first call unchanged (first-write-wins per link). -/
theorem save_twice_first_write_wins (data : List Record)
    (h1 : ∀ r ∈ data, (Record.link r).isSome = true)
    (h2 : (data.map Record.link).Nodup) :
    SQLiteStorage.save noErr [] data
      = (data.map rowOf, ⟨data.length, 0, 0⟩) ∧
    SQLiteStorage.save noErr (data.map rowOf) data
      = (data.map rowOf, ⟨0, data.length, 0⟩) := by
  have hpw : data.Pairwise (fun a b => ∀ s, a.link = some s → b.link ≠ some s) := by
    have hmap : data.Pairwise (fun a b => a.link ≠ b.link) :=
      List.pairwise_map.mp h2
    refine hmap.imp ?_
    intro a b hne s ha hb
    exact hne (by rw [ha, hb])
  constructor
  · unfold SQLiteStorage.save
    rw [save_go_fresh data 0 [] ⟨0, 0, 0⟩ (fun r _ => linkConflict_nil r.link) hpw]
    simp
  · unfold SQLiteStorage.save
    rw [save_go_alldup data 0 (data.map rowOf) ⟨0, 0, 0⟩ ?_]
    · simp
    · intro r hr
      obtain ⟨s, hs⟩ := Option.isSome_iff_exists.mp (h1 r hr)
      simp only [SQLiteStorage.linkConflict, hs, List.any_eq_true]
      refine ⟨rowOf r, List.mem_map_of_mem rowOf hr, ?_⟩
      simp [rowOf, hs]

/-- A concrete two-record batch with distinct non-null links, used to
instantiate the dedup claims. -/
def sampleBatch : List Record :=
  [⟨some "First post", none, none, none, some "https://example.com/a"⟩,
   ⟨some "Second post", none, none, none, some "https://example.com/b"⟩]

/-- Witness for C1 at a concrete two-record batch. -/
theorem save_twice_first_write_wins_witness :
    SQLiteStorage.save noErr [] sampleBatch
      = (sampleBatch.map rowOf, ⟨2, 0, 0⟩) ∧
    SQLiteStorage.save noErr (sampleBatch.map rowOf) sampleBatch
      = (sampleBatch.map rowOf, ⟨0, 2, 0⟩) :=
  save_twice_first_write_wins sampleBatch (by decide) (by decide)

/-- Claim C9: a batch of records whose links are all null/absent is fully
inserted by `SQLiteStorage.save` — each record is counted `inserted`,
never `duplicate` — whatever rows (including other linkless rows) the
store already holds, because the UNIQUE constraint on `link` only fires on
non-null collisions. -/
theorem save_linkless_always_inserts (db : List Row) (data : List Record)
    (h : ∀ r ∈ data, Record.link r = none) :
    SQLiteStorage.save noErr db data
      = (db ++ data.map rowOf, ⟨data.length, 0, 0⟩) := by
  unfold SQLiteStorage.save
  rw [save_go_fresh data 0 db ⟨0, 0, 0⟩ ?_ ?_]
  · simp
  · intro r hr
    rw [h r hr]
    rfl
  · have : ∀ a ∈ data, ∀ b ∈ data, ∀ s, a.link = some s → b.link ≠ some s := by
      intro a ha b _ s hsome
      rw [h a ha] at hsome
      exact absurd hsome (by simp)
    exact List.pairwise_of_forall_mem_list this

/-- A store that already holds two linkless rows. -/
def linklessDb : List Row :=
  [⟨some "Old A", none, none, none, none⟩,
   ⟨some "Old B", none, none, none, none⟩]

/-- A batch of two linkless records. -/
def linklessBatch : List Record :=
  [⟨some "New A", none, none, none, none⟩,
   ⟨some "New B", none, none, none, none⟩]

/-- Witness for C9: two linkless records are both inserted into a store
that already holds two linkless rows. -/
theorem save_linkless_always_inserts_witness :
    SQLiteStorage.save noErr linklessDb linklessBatch
      = (linklessDb ++ linklessBatch.map rowOf, ⟨2, 0, 0⟩) :=
  save_linkless_always_inserts linklessDb linklessBatch (by decide)

/-! ### Selector sets and the auto-detector (auto_detect.py) -/

/-- The selector dictionary returned by `AutoDetector.detect`.  A field is
`none` when the Python dict lacks that key (some registry templates omit
`author` or `date`); `some ""` models a key present with an empty string. -/
structure SelectorSet where
  container : Option String
  title : Option String
  author : Option String
  date : Option String
  content : Option String
  link : Option String
deriving DecidableEq, Repr

namespace AutoDetector

/-- Semantic container candidates (auto_detect.py line 242), probed with no
surrounding try/except. -/
def semantic_tags : List String :=
  ["article", "section[class*=\"post\"]", "section[class*=\"item\"]"]

/-- Class-based container candidates (auto_detect.py lines 251-255), each
probed inside `try: ... except: continue`. -/
def common_classes : List String :=
  [".post", ".card", ".item", ".entry", ".article-item",
   "[class*=\"post\"]", "[class*=\"card\"]", "[class*=\"item\"]",
   "[class*=\"story\"]", "[class*=\"content-item\"]"]

/-- Hard-coded fallback container selector (auto_detect.py line 268). -/
def container_fallback : String :=
  "article, .post, .card, .item, .entry, section[class*=\"post\"]"

/-- Heading candidates for the title (auto_detect.py line 274), probed with
no surrounding try/except. -/
def headings : List String := ["h1", "h2", "h3"]

/-- Class-based title candidates (auto_detect.py line 283), probed inside
try/except. -/
def title_classes : List String :=
  [".title", ".headline", "[class*=\"title\"]", "[class*=\"heading\"]"]

/-- Author candidates (auto_detect.py lines 300-304), probed inside
try/except. -/
def author_selectors : List String :=
  [".author", ".byline", "[class*=\"author\"]",
   "[rel=\"author\"]", "[itemprop=\"author\"]",
   ".meta-author", ".writer"]

/-- Date candidates (auto_detect.py lines 320-324), probed inside
try/except. -/
def date_selectors : List String :=
  ["time", "[datetime]", ".date", ".published",
   "[class*=\"date\"]", "[class*=\"time\"]",
   ".meta-date", ".timestamp"]

/-- Content candidates (auto_detect.py lines 340-344), probed inside
try/except. -/
def content_selectors : List String :=
  [".content", ".description", ".summary", ".excerpt",
   "[class*=\"content\"]", "[class*=\"description\"]",
   "p", ".text"]

/-- The acceptance band `3 <= count <= 100` for container candidates
(auto_detect.py line 246). -/
def inRangeB (n : Nat) : Bool := decide (3 ≤ n) && decide (n ≤ 100)

/-- The acceptance condition `count > 0` used by every other field. -/
def positiveB (n : Nat) : Bool := decide (0 < n)

/-- A candidate loop with NO try/except around the probe (the semantic-tag
loop of `_detect_container` and the headings loop of `_detect_title`): a
probe that raises (`q s = none`) propagates the exception
(`Except.error ()`); otherwise the first accepted candidate is returned,
and `Except.ok none` means the loop fell through. -/
def unguardedLoop (q : String → Option Nat) (accept : Nat → Bool) :
    List String → Except Unit (Option String)
  | [] => Except.ok none
  | s :: rest =>
    match q s with
    | none => Except.error ()
    | some n =>
      match accept n with
      | true => Except.ok (some s)
      | false => unguardedLoop q accept rest

/-- A candidate loop whose probe sits inside `try: ... except: continue`
(all the class-pattern loops): a probe that raises is skipped like a
zero-match candidate. -/
def guardedLoop (q : String → Option Nat) (accept : Nat → Bool) :
    List String → Option String
  | [] => none
  | s :: rest =>
    match q s with
    | none => guardedLoop q accept rest
    | some n =>
      match accept n with
      | true => some s
      | false => guardedLoop q accept rest

/-- `AutoDetector._detect_container` (auto_detect.py lines 238-268):
semantic tags (unguarded) with the [3,100] band, then common classes
(guarded) with the same band, then the hard-coded fallback. -/
def detect_container (q : String → Option Nat) : Except Unit String :=
  match unguardedLoop q inRangeB semantic_tags with
  | Except.error e => Except.error e
  | Except.ok (some s) => Except.ok s
  | Except.ok none =>
    match guardedLoop q inRangeB common_classes with
    | some s => Except.ok s
    | none => Except.ok container_fallback

/-- `AutoDetector._detect_title` (auto_detect.py lines 270-295): headings
(unguarded, count > 0), then title classes (guarded), then a fallback. -/
def detect_title (q : String → Option Nat) : Except Unit String :=
  match unguardedLoop q positiveB headings with
  | Except.error e => Except.error e
  | Except.ok (some s) => Except.ok s
  | Except.ok none =>
    match guardedLoop q positiveB title_classes with
    | some s => Except.ok s
    | none => Except.ok "h1, h2, h3, .title, .headline"

/-- `AutoDetector._detect_author` (auto_detect.py lines 297-315): all
probes guarded, so the function is total. -/
def detect_author (q : String → Option Nat) : String :=
  (guardedLoop q positiveB author_selectors).getD ".author, .byline, [rel=\"author\"]"

/-- `AutoDetector._detect_date` (auto_detect.py lines 317-335). -/
def detect_date (q : String → Option Nat) : String :=
  (guardedLoop q positiveB date_selectors).getD "time, .date, .published"

/-- `AutoDetector._detect_content` (auto_detect.py lines 337-355). -/
def detect_content (q : String → Option Nat) : String :=
  (guardedLoop q positiveB content_selectors).getD ".content, .description, .summary, p"

/-- `AutoDetector._heuristic_detection` (auto_detect.py lines 202-236):
fills every key of the selector dict in order (container, title, author,
date, content, with `link` pinned to `a[href]`).  An exception escaping
`_detect_container` or `_detect_title` aborts the whole detection. -/
def heuristic_detection (q : String → Option Nat) : Except Unit SelectorSet :=
  match detect_container q with
  | Except.error e => Except.error e
  | Except.ok c =>
    match detect_title q with
    | Except.error e => Except.error e
    | Except.ok t =>
      Except.ok ⟨some c, some t, some (detect_author q), some (detect_date q),
                 some (detect_content q), some "a[href]"⟩

end AutoDetector

namespace AutoDetector

/-- Registered template for wikipedia.org (auto_detect.py lines 18-23);
this dict has no `author` and no `date` key. -/
def wikipediaTemplate : SelectorSet :=
  ⟨some ".mw-parser-output > p, .mw-parser-output > h2, .mw-parser-output > h3",
   some "#firstHeading, h1", none, none, some "p", some "a[href]"⟩

/-- Registered template for medium.com (auto_detect.py lines 24-31). -/
def mediumTemplate : SelectorSet :=
  ⟨some "article", some "h1",
   some "[rel=\"author\"], [data-testid=\"authorName\"]",
   some "time", some "article p", some "a[href]"⟩

/-- Registered template for dev.to (auto_detect.py lines 32-39). -/
def devtoTemplate : SelectorSet :=
  ⟨some ".crayons-story", some "h2, h3",
   some ".crayons-story__secondary .crayons-link",
   some "time", some ".crayons-story__body", some "a[href]"⟩

/-- Registered template for reddit.com (auto_detect.py lines 40-47). -/
def redditTemplate : SelectorSet :=
  ⟨some "[data-testid=\"post-container\"], .Post",
   some "h3, [data-click-id=\"text\"]",
   some "[data-testid=\"post_author_link\"]",
   some "time", some "[data-test-id=\"post-content\"]", some "a[href]"⟩

/-- Registered template for stackoverflow.com (auto_detect.py lines 48-55). -/
def stackoverflowTemplate : SelectorSet :=
  ⟨some ".question-summary, .answer", some ".question-hyperlink, h1",
   some ".user-details a", some ".relativetime", some ".s-prose p",
   some "a.question-hyperlink"⟩

/-- Registered template for github.com (auto_detect.py lines 56-63). -/
def githubTemplate : SelectorSet :=
  ⟨some "article.Box-row, .repo-list li", some "h3, h1",
   some "[itemprop=\"author\"]", some "relative-time", some "p.col-9",
   some "a[href]"⟩

/-- Registered template for news.ycombinator.com (auto_detect.py lines 66-73). -/
def hackernewsTemplate : SelectorSet :=
  ⟨some ".athing, tr.athing", some ".titleline > a", some ".hnuser",
   some ".age", some ".comment", some ".titleline > a"⟩

/-- Registered template for amazon.com (auto_detect.py lines 76-83);
`date` is present but empty. -/
def amazonTemplate : SelectorSet :=
  ⟨some "[data-component-type=\"s-search-result\"], .s-result-item",
   some "h2 a, .s-title-instructions-style", some ".a-size-base-plus",
   some "", some ".a-size-base-plus", some "h2 a"⟩

/-- Registered template for mercadolivre.com.br (auto_detect.py lines 84-91). -/
def mercadolivreTemplate : SelectorSet :=
  ⟨some ".ui-search-result", some ".ui-search-item__title",
   some ".ui-search-official-store-label", some "",
   some ".ui-search-item__group__element", some ".ui-search-link"⟩

/-- Registered template for g1.globo.com (auto_detect.py lines 94-101). -/
def g1Template : SelectorSet :=
  ⟨some ".feed-post-body, .widget--info", some ".feed-post-link, h1",
   some ".feed-post-metadata-section", some ".feed-post-datetime",
   some ".feed-post-body-resumo, p", some ".feed-post-link"⟩

/-- Registered template for uol.com.br (auto_detect.py lines 102-109). -/
def uolTemplate : SelectorSet :=
  ⟨some ".thumbnails-item, article", some ".thumb-title, h1",
   some ".author", some ".time", some "p", some "a[href]"⟩

/-- Registered template for folha.uol.com.br (auto_detect.py lines 110-117). -/
def folhaTemplate : SelectorSet :=
  ⟨some ".c-headline, article", some ".c-headline__title, h1",
   some ".c-headline__byline", some "time", some ".c-news__body p",
   some ".c-headline__url"⟩

/-- Registered template for techcrunch.com (auto_detect.py lines 120-127). -/
def techcrunchTemplate : SelectorSet :=
  ⟨some ".post-block, article", some ".post-block__title, h1",
   some ".river-byline__authors", some "time", some ".article-content p",
   some ".post-block__title__link"⟩

/-- Registered template for theverge.com (auto_detect.py lines 128-135). -/
def thevergeTemplate : SelectorSet :=
  ⟨some ".duet--content-cards--content-card, article", some "h2, h1",
   some ".duet--authors--name", some "time",
   some ".duet--article--article-body-component p", some "a[href]"⟩

/-- `SITE_TEMPLATES` (auto_detect.py lines 16-136) as an association list
in the dict literal's insertion order, which is the iteration order of the
partial-match loop in `_try_template` (Python dicts preserve insertion
order). -/
def SITE_TEMPLATES : List (String × SelectorSet) :=
  [("wikipedia.org", wikipediaTemplate),
   ("medium.com", mediumTemplate),
   ("dev.to", devtoTemplate),
   ("reddit.com", redditTemplate),
   ("stackoverflow.com", stackoverflowTemplate),
   ("github.com", githubTemplate),
   ("news.ycombinator.com", hackernewsTemplate),
   ("amazon.com", amazonTemplate),
   ("mercadolivre.com.br", mercadolivreTemplate),
   ("g1.globo.com", g1Template),
   ("uol.com.br", uolTemplate),
   ("folha.uol.com.br", folhaTemplate),
   ("techcrunch.com", techcrunchTemplate),
   ("theverge.com", thevergeTemplate)]

/-- Whether `needle` starts the char list `hay` (helper for the Python
substring operator). -/
def startsWithChars : List Char → List Char → Bool
  | [], _ => true
  | _ :: _, [] => false
  | a :: as, b :: bs => a == b && startsWithChars as bs

/-- Whether `needle` occurs contiguously in `hay` (helper). -/
def containsChars (needle : List Char) : List Char → Bool
  | [] => startsWithChars needle []
  | c :: rest => startsWithChars needle (c :: rest) || containsChars needle rest

/-- The Python substring test `needle in haystack` used by the partial
match of `_try_template` (auto_detect.py line 196). -/
def strContains (haystack needle : String) : Bool :=
  containsChars needle.toList haystack.toList

/-- `AutoDetector._try_template` (auto_detect.py lines 183-200): exact key
lookup first, then the first registered key (in insertion order) that is a
substring of the queried domain, else `None`.  The Python `.copy()` is a
shallow dict copy, equal to the registered template field for field. -/
def try_template (domain : String) : Option SelectorSet :=
  match SITE_TEMPLATES.find? (fun p => p.1 == domain) with
  | some p => some p.2
  | none => (SITE_TEMPLATES.find? (fun p => strContains domain p.1)).map (fun p => p.2)

/-- `AutoDetector.detect` (auto_detect.py lines 162-181): return the
registry template when one resolves (every registered template is a
non-empty dict, hence truthy), otherwise run heuristic detection. -/
def detect (domain : String) (q : String → Option Nat) : Except Unit SelectorSet :=
  match try_template domain with
  | some t => Except.ok t
  | none => heuristic_detection q

end AutoDetector

/-! ### Detector lemmas -/

/-- Whether probing candidate `s` yields an accepted match count; a raising
probe (`q s = none`) is never accepted. -/
def acceptsQ (q : String → Option Nat) (accept : Nat → Bool) (s : String) : Bool :=
  match q s with
  | some n => accept n
  | none => false

/-- The full ordered container candidate list: semantic tags first, then
class patterns. -/
def container_candidates : List String :=
  AutoDetector.semantic_tags ++ AutoDetector.common_classes

/-- The full ordered title candidate list: headings first, then class
patterns. -/
def title_candidates : List String :=
  AutoDetector.headings ++ AutoDetector.title_classes

theorem guardedLoop_eq_find (q : String → Option Nat) (accept : Nat → Bool) :
    ∀ l : List String,
      AutoDetector.guardedLoop q accept l = l.find? (acceptsQ q accept)
  | [] => rfl
  | s :: rest => by
    cases hqs : q s with
    | none =>
      simp only [AutoDetector.guardedLoop, hqs]
      rw [guardedLoop_eq_find q accept rest, List.find?_cons_of_neg]
      simp [acceptsQ, hqs]
    | some n =>
      cases ha : accept n with
      | true =>
        simp only [AutoDetector.guardedLoop, hqs, ha]
        rw [List.find?_cons_of_pos]
        simp [acceptsQ, hqs, ha]
      | false =>
        simp only [AutoDetector.guardedLoop, hqs, ha]
        rw [guardedLoop_eq_find q accept rest, List.find?_cons_of_neg]
        simp [acceptsQ, hqs, ha]

theorem unguardedLoop_eq_find (q : String → Option Nat) (accept : Nat → Bool) :
    ∀ l : List String, (∀ s ∈ l, (q s).isSome = true) →
      AutoDetector.unguardedLoop q accept l
        = Except.ok (l.find? (acceptsQ q accept))
  | [], _ => rfl
  | s :: rest, hq => by
    have hs : (q s).isSome = true := hq s (List.mem_cons_self _ _)
    cases hqs : q s with
    | none => rw [hqs] at hs; simp at hs
    | some n =>
      cases ha : accept n with
      | true =>
        simp only [AutoDetector.unguardedLoop, hqs, ha]
        rw [List.find?_cons_of_pos]
        simp [acceptsQ, hqs, ha]
      | false =>
        simp only [AutoDetector.unguardedLoop, hqs, ha]
        rw [unguardedLoop_eq_find q accept rest
            (fun x hx => hq x (List.mem_cons_of_mem _ hx)),
          List.find?_cons_of_neg]
        simp [acceptsQ, hqs, ha]

/-- `_detect_container` under probes that succeed on the (unguarded)
semantic tags is the first candidate over the whole ordered list whose
count is accepted, with the hard-coded fallback when none is. -/
theorem detect_container_eq_find (q : String → Option Nat)
    (hsem : ∀ s ∈ AutoDetector.semantic_tags, (q s).isSome = true) :
    AutoDetector.detect_container q
      = Except.ok ((container_candidates.find?
          (acceptsQ q AutoDetector.inRangeB)).getD AutoDetector.container_fallback) := by
  unfold AutoDetector.detect_container
  rw [unguardedLoop_eq_find q AutoDetector.inRangeB AutoDetector.semantic_tags hsem,
    guardedLoop_eq_find]
  unfold container_candidates
  rw [List.find?_append]
  cases h1 : AutoDetector.semantic_tags.find? (acceptsQ q AutoDetector.inRangeB) with
  | some s => rfl
  | none =>
    cases h2 : AutoDetector.common_classes.find? (acceptsQ q AutoDetector.inRangeB) with
    | some s => rfl
    | none => rfl

/-- `_detect_title` under probes that succeed on the (unguarded) headings
is the first candidate over the whole ordered list with a positive count,
with the fallback alternation when none has one. -/
theorem detect_title_eq_find (q : String → Option Nat)
    (hhead : ∀ s ∈ AutoDetector.headings, (q s).isSome = true) :
    AutoDetector.detect_title q
      = Except.ok ((title_candidates.find?
          (acceptsQ q AutoDetector.positiveB)).getD "h1, h2, h3, .title, .headline") := by
  unfold AutoDetector.detect_title
  rw [unguardedLoop_eq_find q AutoDetector.positiveB AutoDetector.headings hhead,
    guardedLoop_eq_find]
  unfold title_candidates
  rw [List.find?_append]
  cases h1 : AutoDetector.headings.find? (acceptsQ q AutoDetector.positiveB) with
  | some s => rfl
  | none =>
    cases h2 : AutoDetector.title_classes.find? (acceptsQ q AutoDetector.positiveB) with
    | some s => rfl
    | none => rfl

/-! ### Detector claims -/

/-- Claim C5: container detection selects the first candidate, in the fixed
order (semantic tags then class patterns), whose match count lies in the
closed band [3, 100] (`inRangeB`), falling back to the hard-coded
alternation when no candidate is accepted; a candidate whose count is out
of range is never selected over a later in-range one. -/
theorem container_detection_first_in_band (q : String → Option Nat)
    (hq : ∀ s ∈ container_candidates, (q s).isSome = true) :
    AutoDetector.detect_container q
      = Except.ok ((container_candidates.find?
          (acceptsQ q AutoDetector.inRangeB)).getD AutoDetector.container_fallback) :=
  detect_container_eq_find q
    (fun s hs => hq s (List.mem_append_left _ hs))

/-- The DOM of the spec's synthetic test: `article` matches exactly 5
elements, `.item` matches 200, every other probe matches nothing. -/
def q5 : String → Option Nat := fun s =>
  if s == "article" then some 5 else if s == ".item" then some 200 else some 0

/-- Witness for C5: on the synthetic DOM, `article` (5 matches, in range)
wins and `.item` (200 matches, out of range) is not selected. -/
theorem container_detection_first_in_band_witness :
    AutoDetector.detect_container q5 = Except.ok "article" := by
  rw [container_detection_first_in_band q5 (by decide)]
  rfl

/-- Claim C2: for a page whose domain resolves no registry template,
`detect` runs the heuristic branch and — when every candidate probe
returns a count, even one outside its acceptance condition — returns a
selector set whose `container` and `link` fields are non-empty strings. -/
theorem heuristic_fallback_nonempty_container_link (domain : String)
    (q : String → Option Nat)
    (ht : AutoDetector.try_template domain = none)
    (hq : ∀ s, (q s).isSome = true) :
    ∃ sel, AutoDetector.detect domain q = Except.ok sel ∧
      (∃ c, sel.container = some c ∧ c ≠ "") ∧
      (∃ l, sel.link = some l ∧ l ≠ "") := by
  have hc := detect_container_eq_find q (fun s _ => hq s)
  have htl := detect_title_eq_find q (fun s _ => hq s)
  have hcne : (container_candidates.find?
      (acceptsQ q AutoDetector.inRangeB)).getD AutoDetector.container_fallback ≠ "" := by
    cases hfind : container_candidates.find? (acceptsQ q AutoDetector.inRangeB) with
    | some s =>
      have hmem := List.mem_of_find?_eq_some hfind
      have hall : ∀ x ∈ container_candidates, x ≠ "" := by decide
      simpa using hall s hmem
    | none => decide
  refine ⟨⟨some ((container_candidates.find?
        (acceptsQ q AutoDetector.inRangeB)).getD AutoDetector.container_fallback),
      some ((title_candidates.find?
        (acceptsQ q AutoDetector.positiveB)).getD "h1, h2, h3, .title, .headline"),
      some (AutoDetector.detect_author q), some (AutoDetector.detect_date q),
      some (AutoDetector.detect_content q), some "a[href]"⟩,
    ?_, ⟨_, rfl, hcne⟩, ⟨"a[href]", rfl, by decide⟩⟩
  simp only [AutoDetector.detect, ht]
  simp only [AutoDetector.heuristic_detection, hc, htl]

/-- A DOM-query oracle that never raises and matches nothing. -/
def qZero : String → Option Nat := fun _ => some 0

/-- Witness for C2 at the unregistered domain example.com with a DOM where
every candidate count (0) is outside its acceptance condition. -/
theorem heuristic_fallback_nonempty_witness :
    ∃ sel, AutoDetector.detect "example.com" qZero = Except.ok sel ∧
      (∃ c, sel.container = some c ∧ c ≠ "") ∧
      (∃ l, sel.link = some l ∧ l ≠ "") :=
  heuristic_fallback_nonempty_container_link "example.com" qZero
    (by decide) (fun _ => rfl)

/-- A DOM-query oracle whose probe for the first semantic container
candidate `article` raises, while every other probe succeeds. -/
def qRaisesOnArticle : String → Option Nat := fun s =>
  if s == "article" then none else some 5

/-- Claim C6 counterexample: a probe failure on the semantic-tag container
candidate `article` is NOT treated as zero matches — it aborts the whole
heuristic detection (the semantic-tag loop of `_detect_container` and the
headings loop of `_detect_title` have no try/except), so no selector set
is returned, refuting the claim that no probe failure on any candidate of
any field aborts detection. -/
theorem probe_failure_aborts_detection :
    AutoDetector.heuristic_detection qRaisesOnArticle = Except.error () := by
  rfl

/-- Claim C6 (amended): only the class-pattern candidate loops (container
common classes, title classes, and all author/date/content candidates) sit
inside try/except; a probe failure there is treated as zero matches and
skipped.  Provided the unguarded probes — the three semantic container
tags and the three heading tags — succeed, detection always returns a
complete selector set, whatever other probes raise. -/
theorem guarded_probe_failures_skipped (q : String → Option Nat)
    (hsem : ∀ s ∈ AutoDetector.semantic_tags, (q s).isSome = true)
    (hhead : ∀ s ∈ AutoDetector.headings, (q s).isSome = true) :
    ∃ sel, AutoDetector.heuristic_detection q = Except.ok sel ∧
      sel.container.isSome = true ∧ sel.title.isSome = true ∧
      sel.author.isSome = true ∧ sel.date.isSome = true ∧
      sel.content.isSome = true ∧ sel.link.isSome = true := by
  have hc := detect_container_eq_find q hsem
  have htl := detect_title_eq_find q hhead
  refine ⟨⟨some ((container_candidates.find?
        (acceptsQ q AutoDetector.inRangeB)).getD AutoDetector.container_fallback),
      some ((title_candidates.find?
        (acceptsQ q AutoDetector.positiveB)).getD "h1, h2, h3, .title, .headline"),
      some (AutoDetector.detect_author q), some (AutoDetector.detect_date q),
      some (AutoDetector.detect_content q), some "a[href]"⟩,
    ?_, rfl, rfl, rfl, rfl, rfl, rfl⟩
  simp only [AutoDetector.heuristic_detection, hc, htl]

/-- A DOM-query oracle that raises on every probe except the unguarded
semantic container tags and heading tags. -/
def qOnlyUnguarded : String → Option Nat := fun s =>
  if s ∈ AutoDetector.semantic_tags || s ∈ AutoDetector.headings then some 0
  else none

/-- Witness for the amended C6: with every guarded probe raising, detection
still returns a complete selector set. -/
theorem guarded_probe_failures_skipped_witness :
    ∃ sel, AutoDetector.heuristic_detection qOnlyUnguarded = Except.ok sel ∧
      sel.container.isSome = true ∧ sel.title.isSome = true ∧
      sel.author.isSome = true ∧ sel.date.isSome = true ∧
      sel.content.isSome = true ∧ sel.link.isSome = true :=
  guarded_probe_failures_skipped qOnlyUnguarded (by decide) (by decide)

/-- In an association list with pairwise-distinct keys, the exact-match
scan of `_try_template` finds exactly the entry of a present key. -/
theorem findExact_of_mem :
    ∀ (l : List (String × SelectorSet)), (l.map Prod.fst).Nodup →
      ∀ domain t, (domain, t) ∈ l →
        l.find? (fun p => p.1 == domain) = some (domain, t)
  | [], _, _, _, h => absurd h (List.not_mem_nil _)
  | p :: rest, hnd, domain, t, hmem => by
    have hnd' : p.1 ∉ rest.map Prod.fst ∧ (rest.map Prod.fst).Nodup :=
      List.nodup_cons.mp (by simpa using hnd)
    rcases List.mem_cons.mp hmem with heq | htail
    · rw [← heq]
      rw [List.find?_cons_of_pos]
      simp
    · have hpf : (p.1 == domain) = false := by
        rw [beq_eq_false_iff_ne]
        intro hpd
        have hdm : domain ∈ rest.map Prod.fst := by
          have := List.mem_map_of_mem Prod.fst htail
          simpa using this
        exact hnd'.1 (hpd ▸ hdm)
      simp only [List.find?, hpf]
      exact findExact_of_mem rest hnd'.2 domain t htail

/-- The partial-match scan of `_try_template` returns the first entry, in
registry order, whose key is a substring of the queried domain. -/
theorem findPartial_first (domain : String) :
    ∀ (pre : List (String × SelectorSet)) (k : String) (t : SelectorSet)
      (post : List (String × SelectorSet)),
      AutoDetector.strContains domain k = true →
      (∀ p ∈ pre, AutoDetector.strContains domain p.1 = false) →
      (pre ++ (k, t) :: post).find?
          (fun p => AutoDetector.strContains domain p.1) = some (k, t)
  | [], k, t, post, hk, _ => by
    rw [List.nil_append]
    exact List.find?_cons_of_pos post hk
  | p :: pre, k, t, post, hk, hpre => by
    have hpf : AutoDetector.strContains domain p.1 = false :=
      hpre p (List.mem_cons_self _ _)
    rw [List.cons_append]
    simp only [List.find?, hpf]
    exact findPartial_first domain pre k t post hk
      (fun x hx => hpre x (List.mem_cons_of_mem _ hx))

/-- Claim C4: template lookup in `detect`: a domain that is verbatim a
registry key resolves to the registered selector set, field for field,
with the DOM never probed; with no exact match, the first registered key
(in the registry's fixed insertion order) that is a substring of the
queried domain wins; and only when no registered key matches exactly or as
a substring does `detect` fall through to heuristic detection. -/
theorem template_lookup_resolution (domain : String) (q : String → Option Nat) :
    (∀ t, (domain, t) ∈ AutoDetector.SITE_TEMPLATES →
        AutoDetector.detect domain q = Except.ok t) ∧
    (∀ pre k t post,
        AutoDetector.SITE_TEMPLATES = pre ++ (k, t) :: post →
        (∀ p ∈ AutoDetector.SITE_TEMPLATES, p.1 ≠ domain) →
        AutoDetector.strContains domain k = true →
        (∀ p ∈ pre, AutoDetector.strContains domain p.1 = false) →
        AutoDetector.detect domain q = Except.ok t) ∧
    ((∀ p ∈ AutoDetector.SITE_TEMPLATES, p.1 ≠ domain ∧
        AutoDetector.strContains domain p.1 = false) →
      AutoDetector.detect domain q = AutoDetector.heuristic_detection q) := by
  refine ⟨?_, ?_, ?_⟩
  · intro t hmem
    have hnd : (AutoDetector.SITE_TEMPLATES.map Prod.fst).Nodup := by decide
    simp only [AutoDetector.detect, AutoDetector.try_template,
      findExact_of_mem AutoDetector.SITE_TEMPLATES hnd domain t hmem]
  · intro pre k t post hsplit hno hk hpre
    have hnone : AutoDetector.SITE_TEMPLATES.find? (fun p => p.1 == domain) = none := by
      rw [List.find?_eq_none]
      intro p hp
      simp [hno p hp]
    have hfirst : AutoDetector.SITE_TEMPLATES.find?
        (fun p => AutoDetector.strContains domain p.1) = some (k, t) := by
      rw [hsplit]
      exact findPartial_first domain pre k t post hk hpre
    simp only [AutoDetector.detect, AutoDetector.try_template, hnone, hfirst]
    rfl
  · intro hno
    have hnone1 : AutoDetector.SITE_TEMPLATES.find? (fun p => p.1 == domain) = none := by
      rw [List.find?_eq_none]
      intro p hp
      simp [(hno p hp).1]
    have hnone2 : AutoDetector.SITE_TEMPLATES.find?
        (fun p => AutoDetector.strContains domain p.1) = none := by
      rw [List.find?_eq_none]
      intro p hp
      simp [(hno p hp).2]
    simp only [AutoDetector.detect, AutoDetector.try_template, hnone1, hnone2]
    rfl

/-- Witness for C4: an exact match (medium.com), a partial match
(en.wikipedia.org resolved by registered key wikipedia.org), and an
unmatched domain (example.com) falling through to heuristics, all probed
with the all-zero DOM oracle. -/
theorem template_lookup_resolution_witness :
    AutoDetector.detect "medium.com" qZero = Except.ok AutoDetector.mediumTemplate ∧
    AutoDetector.detect "en.wikipedia.org" qZero
      = Except.ok AutoDetector.wikipediaTemplate ∧
    AutoDetector.detect "example.com" qZero
      = AutoDetector.heuristic_detection qZero :=
  ⟨(template_lookup_resolution "medium.com" qZero).1
      AutoDetector.mediumTemplate (by decide),
   (template_lookup_resolution "en.wikipedia.org" qZero).2.1
      [] "wikipedia.org" AutoDetector.wikipediaTemplate
      AutoDetector.SITE_TEMPLATES.tail (by rfl) (by decide) (by decide)
      (by simp),
   (template_lookup_resolution "example.com" qZero).2.2 (by decide)⟩

/-! ### Extraction pipeline (scraper.py) -/

/-- The date element found inside a container: its `datetime` attribute
value as returned by `get_attribute` (`none` when the attribute is absent)
and its raw inner text. -/
structure DateEl where
  datetimeAttr : Option String
  text : String
deriving DecidableEq, Repr

/-- One container element as seen by `_extract_item_data`.  Each field
models one `query_selector` probe (plus the subsequent reads on the found
element): `Except.error ()` is a raised exception, `Except.ok none` is "no
descendant matched", `Except.ok (some v)` is the found element's data.
Texts are stored raw; the model applies `.strip()` where the Python does.
`linkQ` carries the anchor's `href` attribute (`some none` = anchor with
no href). -/
structure ContainerElem where
  titleQ : Except Unit (Option String)
  authorQ : Except Unit (Option String)
  dateQ : Except Unit (Option DateEl)
  contentQ : Except Unit (Option String)
  linkQ : Except Unit (Option (Option String))
deriving Repr

namespace WebScraper

/-- Python `str.strip()` on the whitespace characters: drop leading and
trailing whitespace (structurally recursive so that concrete runs reduce). -/
def pyStrip (s : String) : String :=
  ⟨((s.toList.dropWhile Char.isWhitespace).reverse.dropWhile
      Char.isWhitespace).reverse⟩

/-- The date value logic (scraper.py lines 245-251): prefer the `datetime`
attribute, fall back to the element's stripped inner text when the
attribute is missing or falsy (empty). -/
def dateValue (d : DateEl) : String :=
  match d.datetimeAttr with
  | some a => if a = "" then pyStrip d.text else a
  | none => pyStrip d.text

/-- The link value logic (scraper.py lines 258-266): take the anchor's
href only when truthy (present and non-empty) and resolve it against the
page URL via the delegated `new URL(href, window.location.href)` browser
evaluation, modelled by `resolve`. -/
def linkValue (resolve : String → String) : Option (Option String) → Option String
  | some (some h) => if h = "" then none else some (resolve h)
  | some none => none
  | none => none

/-- `WebScraper._extract_item_data` (scraper.py lines 222-268): probes the
five fields in source order (title, author, date, content, link); there is
no per-field try/except, so the first probe that raises propagates the
exception out of the whole item extraction. -/
def extract_item_data (resolve : String → String) (c : ContainerElem) :
    Except Unit Record :=
  match c.titleQ with
  | Except.error e => Except.error e
  | Except.ok titleEl =>
    match c.authorQ with
    | Except.error e => Except.error e
    | Except.ok authorEl =>
      match c.dateQ with
      | Except.error e => Except.error e
      | Except.ok dateEl =>
        match c.contentQ with
        | Except.error e => Except.error e
        | Except.ok contentEl =>
          match c.linkQ with
          | Except.error e => Except.error e
          | Except.ok linkEl =>
            Except.ok ⟨titleEl.map pyStrip,
                       authorEl.map pyStrip,
                       dateEl.map dateValue,
                       contentEl.map pyStrip,
                       linkValue resolve linkEl⟩

/-- Python truthiness of an optional string (`item.get(k)` used in a
boolean context): absent keys and empty strings are falsy. -/
def pyTruthy : Option String → Bool
  | none => false
  | some s => !(s == "")

/-- The retention test of scraper.py line 207:
`if item.get('title') or item.get('link')`. -/
def keptRecord (r : Record) : Bool := pyTruthy r.title || pyTruthy r.link

/-- The `for idx, container in enumerate(containers, 1)` loop of
`extract_data` (scraper.py lines 202-213): an exception from
`_extract_item_data` is caught per container (`log and continue`, the
item's partial data is discarded); an extracted item is appended only when
the retention test passes. -/
def extract_loop (resolve : String → String) : List ContainerElem → List Record
  | [] => []
  | c :: rest =>
    match extract_item_data resolve c with
    | Except.error _ => extract_loop resolve rest
    | Except.ok item =>
      match keptRecord item with
      | true => item :: extract_loop resolve rest
      | false => extract_loop resolve rest

/-- Python slicing `containers[:n]` for an arbitrary integer `n`
(scraper.py line 200): a non-negative bound keeps the first `n` elements;
a negative bound drops the last `-n`. -/
def pyTake (l : List ContainerElem) (n : Int) : List ContainerElem :=
  if 0 ≤ n then l.take n.toNat else l.take ((l.length : Int) + n).toNat

/-- `WebScraper.extract_data` (scraper.py lines 179-220) after the
container query: `if max_items:` is Python truthiness, so `None` AND `0`
both skip the truncation; otherwise the ordered container list is sliced
to `max_items` before the extraction loop runs. -/
def extract_data (resolve : String → String) (containers : List ContainerElem)
    (max_items : Option Int) : List Record :=
  match max_items with
  | none => extract_loop resolve containers
  | some n =>
    if n = 0 then extract_loop resolve containers
    else extract_loop resolve (pyTake containers n)

end WebScraper

/-! ### Extraction claims -/

theorem extract_loop_all_kept (resolve : String → String) :
    ∀ cs : List ContainerElem,
      (WebScraper.extract_loop resolve cs).all WebScraper.keptRecord = true
  | [] => rfl
  | c :: rest => by
    cases hi : WebScraper.extract_item_data resolve c with
    | error e =>
      simp only [WebScraper.extract_loop, hi]
      exact extract_loop_all_kept resolve rest
    | ok item =>
      cases hk : WebScraper.keptRecord item with
      | true =>
        simp only [WebScraper.extract_loop, hi, hk]
        rw [List.all_cons]
        rw [hk, extract_loop_all_kept resolve rest]
        rfl
      | false =>
        simp only [WebScraper.extract_loop, hi, hk]
        exact extract_loop_all_kept resolve rest

/-- Claim C3: for every DOM, container list and `max_items`, every record
yielded by `extract_data` passes the retention test — it has a non-empty
title or a non-empty link — whatever its other fields hold. -/
theorem extract_records_titled_or_linked (resolve : String → String)
    (containers : List ContainerElem) (max_items : Option Int) :
    (WebScraper.extract_data resolve containers max_items).all
      WebScraper.keptRecord = true := by
  cases max_items with
  | none => exact extract_loop_all_kept resolve containers
  | some n =>
    simp only [WebScraper.extract_data]
    by_cases h0 : n = 0
    · rw [if_pos h0]
      exact extract_loop_all_kept resolve containers
    · rw [if_neg h0]
      exact extract_loop_all_kept resolve _

/-- The identity URL resolver: links in the test containers are already
absolute. -/
def resolveId : String → String := fun s => s

/-- A container whose probes all succeed: a title and an absolute link. -/
def goodContainer : ContainerElem :=
  ⟨Except.ok (some "Title One"), Except.ok none, Except.ok none,
   Except.ok none, Except.ok (some (some "https://example.com/a"))⟩

/-- A container whose title probe succeeds (with text) but whose author
probe raises. -/
def badAuthorContainer : ContainerElem :=
  ⟨Except.ok (some "Partial Title"), Except.error (), Except.ok none,
   Except.ok none, Except.ok none⟩

/-- Claim C7 counterexample: a container whose title was already extracted
("Partial Title") and whose author probe then raises yields NO record at
all — the whole container is discarded by the per-container try/except in
`extract_data` (there is no per-field error handling in
`_extract_item_data`), refuting "yields a Record containing the partial
data". -/
theorem field_error_discards_partial_record :
    WebScraper.extract_data resolveId [badAuthorContainer] none = [] := by
  rfl

/-- Claim C7 (amended): an error raised while extracting any field of a
container causes that container's record to be discarded entirely (no
partial record is yielded), but does not abort the batch: extraction
continues with the remaining containers exactly as if the failing
container were absent. -/
theorem field_error_skips_container_continues (resolve : String → String)
    (c : ContainerElem) (cs : List ContainerElem)
    (h : WebScraper.extract_item_data resolve c = Except.error ()) :
    WebScraper.extract_data resolve (c :: cs) none
      = WebScraper.extract_data resolve cs none := by
  simp only [WebScraper.extract_data, WebScraper.extract_loop, h]

/-- Witness for the amended C7: the failing container is skipped and the
following container is still extracted. -/
theorem field_error_skips_container_continues_witness :
    WebScraper.extract_data resolveId [badAuthorContainer, goodContainer] none
      = WebScraper.extract_data resolveId [goodContainer] none :=
  field_error_skips_container_continues resolveId badAuthorContainer
    [goodContainer] (by rfl)

/-- Claim C8 counterexample: `max_items = 0` does NOT yield zero
containers — `if max_items:` treats 0 as falsy, skipping the truncation,
so the single container of this page is still processed and yields its
record. -/
theorem max_items_zero_processes_all :
    WebScraper.extract_data resolveId [goodContainer] (some 0)
      = [⟨some "Title One", none, none, none, some "https://example.com/a"⟩] := by
  rfl

/-- Claim C8 (amended): for every positive `max_items = n`, `extract_data`
processes exactly the first `n` containers in document order (the leading
prefix of the container list), equivalently: it behaves as the
untruncated extraction of `containers.take n`; `max_items = 0` is treated
as unset (all containers processed), per the counterexample. -/
theorem max_items_positive_takes_leading (resolve : String → String)
    (containers : List ContainerElem) (n : Int) (h : 0 < n) :
    WebScraper.extract_data resolve containers (some n)
      = WebScraper.extract_data resolve (containers.take n.toNat) none := by
  have h0 : ¬(n = 0) := by omega
  have h1 : (0 : Int) ≤ n := le_of_lt h
  simp only [WebScraper.extract_data]
  rw [if_neg h0]
  unfold WebScraper.pyTake
  rw [if_pos h1]

/-- Witness for the amended C8: `max_items = 2` on a three-container page
extracts exactly from the first two containers. -/
theorem max_items_positive_takes_leading_witness :
    WebScraper.extract_data resolveId
        [goodContainer, goodContainer, badAuthorContainer] (some 2)
      = WebScraper.extract_data resolveId
          ([goodContainer, goodContainer, badAuthorContainer].take (Int.toNat 2))
          none :=
  max_items_positive_takes_leading resolveId
    [goodContainer, goodContainer, badAuthorContainer] 2 (by decide)
